import Mathlib

/-!
Verification of the Marketplace API backend (src/main.py) against its
specification.  The HTTP layer of src/main.py is embedded shallowly:
routes become pure functions over an explicit store state, decimals
(spec section 3: price and rating are decimals) become rationals, and
Python dictionaries holding product fields become structures.  The
document-store accessor module (database.py: `db`, `get_documents`,
`create_document`) and the transport schema module (schemas.py:
`Product`) are declared and called by src/main.py but their sources are
not in the repository snapshot; they are modelled from the
specification where marked.
-/

namespace Marketplace

/-- Transport shape of a product (schemas.py `Product`).
Modelled from the spec: schemas.py is not in the snapshot; spec section 3
lists the fields — title, description, price (decimal), category,
in_stock, image_url, brand, rating (decimal), tags (sequence of text),
featured — and says the transport schema carries no identifier field. -/
structure Product where
  title : String
  description : String
  price : Rat
  category : String
  in_stock : Bool
  image_url : String
  brand : String
  rating : Rat
  tags : List String
  featured : Bool
deriving DecidableEq, Repr

/-- A document as stored in the `product` collection: the product fields
plus the store-assigned identity `_id`.  The spec (section 3) says
identity is assigned by the store. -/
structure StoredDoc extends Product where
  id : Nat
deriving DecidableEq, Repr

/-- Dropping the `_id` field before coercing a stored document into the
transport `Product` shape (src/main.py lines 166-168 and 177-179:
`d.pop("_id", None)` followed by `Product(**d)`). -/
def stripId (d : StoredDoc) : Product := d.toProduct

/-- The price sub-filter built on src/main.py lines 150-154:
optional `$gte` and `$lte` keys. -/
structure PriceFilter where
  gte : Option Rat
  lte : Option Rat
deriving DecidableEq, Repr

/-- The Mongo-style filter dictionary built by `list_products`
(src/main.py lines 144-161).  Only the four shapes of clause that the
code constructs are represented: an exact-match `category` clause, an
exact-match `featured` clause, a `price` range clause, and the `$or`
clause built from the free-text query `q`. -/
structure Filter where
  category : Option String
  featured : Option Bool
  price : Option PriceFilter
  orQ : Option String
deriving DecidableEq, Repr

/-- The empty filter `{}` (used by `count_documents({})`). -/
def emptyFilter : Filter :=
  { category := none, featured := none, price := none, orQ := none }

/-- Check an optional clause: an absent clause constrains nothing. -/
def optCheck {α : Type} (o : Option α) (p : α → Bool) : Bool :=
  match o with
  | none => true
  | some a => p a

/-- Lowercase a code point, folding the ASCII uppercase range onto the
lowercase range (the case folding the store's `i` regex option applies). -/
def lowerCode (n : Nat) : Nat := if 65 ≤ n ∧ n ≤ 90 then n + 32 else n

/-- Case-insensitive character equality. -/
def eqCI (a b : Char) : Bool := lowerCode a.toNat == lowerCode b.toNat

/-- Boolean test that the first character list is a case-insensitive
prefix of the second. -/
def isPrefixCI : List Char → List Char → Bool
  | [], _ => true
  | _ :: _, [] => false
  | c :: cs, d :: ds => eqCI c d && isPrefixCI cs ds

/-- Boolean test that the first character list occurs contiguously inside
the second, up to case. -/
def isSubstrCI (needle : List Char) : List Char → Bool
  | [] => isPrefixCI needle []
  | d :: ds => isPrefixCI needle (d :: ds) || isSubstrCI needle ds

/-- Case-insensitive substring containment.
Modelled from the spec: the `$regex ... $options i` clause that
src/main.py lines 158-159 sends to the store is evaluated by the missing
database layer; the spec (section 4.1) describes it as "a
case-insensitive substring match against title OR description". -/
def containsCI (hay needle : String) : Bool :=
  isSubstrCI needle.data hay.data

/-- Whether a stored document matches a filter.
Modelled from the spec: filter evaluation happens inside database.py's
`get_documents`, which is not in the snapshot.  Per the spec (section
4.1) the clauses mean: exact match on category and featured, an
inclusive price range, and for the free-text query a case-insensitive
substring match against title or description or exact membership in
tags. -/
def matchesFilter (f : Filter) (d : StoredDoc) : Bool :=
  optCheck f.category (fun c => d.category == c) &&
  optCheck f.featured (fun b => d.featured == b) &&
  optCheck f.price (fun pf =>
    optCheck pf.gte (fun m => decide (m ≤ d.price)) &&
    optCheck pf.lte (fun M => decide (d.price ≤ M))) &&
  optCheck f.orQ (fun q =>
    containsCI d.title q || containsCI d.description q || d.tags.contains q)

/-- Fetch the documents of the collection matching a filter, up to an
optional limit.
Modelled from the spec: database.py's `get_documents` is not in the
snapshot; per the spec it performs a straightforward find against the
collection, and the featured endpoint's limit of 6 caps the result. -/
def get_documents (coll : List StoredDoc) (f : Filter) (limit : Option Nat) :
    List StoredDoc :=
  match limit with
  | none => coll.filter (matchesFilter f)
  | some n => (coll.filter (matchesFilter f)).take n

/-- Insert one document, with the store assigning the identity.
Modelled from the spec: database.py's `create_document` is not in the
snapshot; per the spec (section 3) it stores the payload as a standalone
document and the store assigns the identity. -/
def create_document (coll : List StoredDoc) (p : Product) : List StoredDoc :=
  coll ++ [{ toProduct := p, id := coll.length }]

/-- Python truthiness of an optional string parameter: `if category:` and
`if q:` (src/main.py lines 145 and 156) skip the clause when the
parameter is absent or the empty string. -/
def truthy (o : Option String) : Option String :=
  match o with
  | none => none
  | some s => if s = "" then none else some s

/-- The filter dictionary built by `list_products`
(src/main.py lines 144-161): `category` under truthiness, `featured`
under `is not None`, a `price` clause when at least one bound is given,
and the `$or` free-text clause under truthiness of `q`. -/
def list_products_filters (category q : Option String) (featured : Option Bool)
    (min_price max_price : Option Rat) : Filter :=
  { category := truthy category
    featured := featured
    price :=
      match min_price, max_price with
      | none, none => none
      | mn, mx => some { gte := mn, lte := mx }
    orQ := truthy q }

/-- The HTTP exception raised when the store is unconfigured
(src/main.py lines 57, 143, 174). -/
structure HTTPException where
  status_code : Nat
  detail : String
deriving DecidableEq, Repr

/-- The store operations the endpoints issue, recorded as a trace. -/
inductive DbOp where
  | countDocuments
  | find
  | insertOne
  | listCollectionNames
deriving DecidableEq, Repr

/-- Whether a store operation writes to the collection. -/
def DbOp.isWrite : DbOp → Bool
  | .insertOne => true
  | _ => false

/-- Pure core of GET /products (src/main.py lines 134-169): build the
filter, fetch the matching documents, drop `_id`, coerce to `Product`. -/
def list_products (coll : List StoredDoc) (category q : Option String)
    (featured : Option Bool) (min_price max_price : Option Rat) : List Product :=
  (get_documents coll (list_products_filters category q featured min_price max_price)
    none).map stripId

/-- GET /products as an endpoint over the nullable store handle: result,
resulting store state, and the trace of store operations issued. -/
def list_products_ep (db : Option (List StoredDoc)) (category q : Option String)
    (featured : Option Bool) (min_price max_price : Option Rat) :
    Except HTTPException (List Product) × Option (List StoredDoc) × List DbOp :=
  match db with
  | none => (Except.error ⟨500, "Database not configured"⟩, none, [])
  | some coll =>
      (Except.ok (list_products coll category q featured min_price max_price),
       some coll, [DbOp.find])

/-- The filter `{"featured": True}` of src/main.py line 175. -/
def featured_filter : Filter :=
  { category := none, featured := some true, price := none, orQ := none }

/-- Pure core of GET /products/featured (src/main.py lines 171-180):
fetch documents with featured = true, limit 6, drop `_id`, coerce. -/
def featured_products (coll : List StoredDoc) : List Product :=
  (get_documents coll featured_filter (some 6)).map stripId

/-- GET /products/featured as an endpoint over the nullable store handle. -/
def featured_products_ep (db : Option (List StoredDoc)) :
    Except HTTPException (List Product) × Option (List StoredDoc) × List DbOp :=
  match db with
  | none => (Except.error ⟨500, "Database not configured"⟩, none, [])
  | some coll => (Except.ok (featured_products coll), some coll, [DbOp.find])

/-- The five demo products of src/main.py lines 61-122, field for field. -/
def demo_products : List Product :=
  [{ title := "Velvet Rose Eau de Parfum"
     description := "A lush floral fragrance with notes of rose, amber, and musk."
     price := 79
     category := "women"
     in_stock := true
     image_url := "https://images.unsplash.com/photo-1523292562811-8fa7962a78c8"
     brand := "Aurelia"
     rating := 4.7
     tags := ["fragrance", "perfume", "floral"]
     featured := true },
   { title := "Gentleman Grooming Kit"
     description := "Complete shaving and beard care kit with natural oils."
     price := 59
     category := "men"
     in_stock := true
     image_url := "https://images.unsplash.com/photo-1600986603369-9d3d0f6f0f9b"
     brand := "NordCraft"
     rating := 4.5
     tags := ["grooming", "kit", "beard"]
     featured := true },
   { title := "Ceramic Wave Vase"
     description := "Minimal wave-pattern vase to elevate any interior."
     price := 39
     category := "home"
     in_stock := true
     image_url := "https://images.unsplash.com/photo-1523419409543-a7cf3f4e8d8f"
     brand := "Haven"
     rating := 4.6
     tags := ["decor", "vase", "ceramic"]
     featured := false },
   { title := "Lavender Silk Body Lotion"
     description := "Ultra-hydrating lotion with calming lavender."
     price := 24
     category := "women"
     in_stock := true
     image_url := "https://images.unsplash.com/photo-1585386959984-a41552231658"
     brand := "Serene"
     rating := 4.4
     tags := ["body", "lotion", "lavender"]
     featured := false },
   { title := "Matte Stone Candle Holder"
     description := "Sculptural holder with a soft matte finish."
     price := 29
     category := "home"
     in_stock := true
     image_url := "https://images.unsplash.com/photo-1519710164239-da123dc03ef4"
     brand := "Aura"
     rating := 4.3
     tags := ["decor", "candle"]
     featured := false }]

/-- POST /seed (src/main.py lines 54-125): error when the store is
unconfigured; no-op with the current count when the collection is
non-empty; otherwise insert the five demo products one by one via
`create_document` and return the inserted count.  Returns the response
message and count, the resulting store state, and the operation trace. -/
def seed_products (db : Option (List StoredDoc)) :
    Except HTTPException (String × Nat) × Option (List StoredDoc) × List DbOp :=
  match db with
  | none => (Except.error ⟨500, "Database not configured"⟩, none, [])
  | some coll =>
      if coll.length > 0 then
        (Except.ok ("Catalog already seeded", coll.length), some coll,
         [DbOp.countDocuments])
      else
        (Except.ok ("Catalog seeded", demo_products.length),
         some (demo_products.foldl create_document coll),
         DbOp.countDocuments :: demo_products.map (fun _ => DbOp.insertOne))

/-- Python string slicing `str(e)[:50]` (src/main.py lines 46 and 50):
keep the first 50 code points. -/
def truncate50 (s : String) : String := String.mk (s.data.take 50)

/-- The JSON body returned by GET /test (src/main.py lines 27-34). -/
structure TestResponse where
  backend : String
  database : String
  database_url : Option String
  database_name : Option String
  connection_status : String
  collections : List String
deriving DecidableEq, Repr

/-- GET /test (src/main.py lines 25-51).  Inputs model the environment:
whether the db handle is present, `db.name` when the handle exposes one,
whether DATABASE_URL is set, and the behaviour of
`db.list_collection_names()` — either a name list or a raised exception
carrying a message.  The function is total: every exception path of the
source is caught and folded into the response. -/
def test_database (dbPresent : Bool) (dbName : Option String) (urlSet : Bool)
    (listCollections : Except String (List String)) : TestResponse × List DbOp :=
  if dbPresent then
    let base : TestResponse :=
      { backend := "✅ Running"
        database := "✅ Available"
        database_url := some (if urlSet then "✅ Set" else "❌ Not Set")
        database_name := some (match dbName with | some n => n | none => "✅ Connected")
        connection_status := "Connected"
        collections := [] }
    match listCollections with
    | Except.ok cols =>
        ({ base with
            collections := cols.take 10
            database := "✅ Connected & Working" },
         [DbOp.listCollectionNames])
    | Except.error e =>
        ({ base with database := "⚠️  Connected but Error: " ++ truncate50 e },
         [DbOp.listCollectionNames])
  else
    ({ backend := "✅ Running"
       database := "⚠️  Available but not initialized"
       database_url := none
       database_name := none
       connection_status := "Not Connected"
       collections := [] }, [])

/-- A concrete stored document used to instantiate theorems with
hypotheses on concrete inputs. -/
def womenDoc : StoredDoc :=
  { title := "Silk Scarf"
    description := "A soft scarf."
    price := 10
    category := "women"
    in_stock := true
    image_url := ""
    brand := "B"
    rating := 5
    tags := ["scarf"]
    featured := true
    id := 3 }

/-- C1: with a non-empty free-text query q and all other filter
parameters absent, list_products returns exactly the stored documents
whose title contains q as a case-insensitive substring, or whose
description does, or whose tags contain q as an exact member — each
coerced to the transport Product shape. -/
theorem list_products_query_spec (coll : List StoredDoc) (q : String) (hq : q ≠ "") :
    list_products coll none (some q) none none none =
      (coll.filter (fun d =>
        containsCI d.title q || containsCI d.description q ||
        d.tags.contains q)).map stripId := by
  simp only [list_products, get_documents, list_products_filters, truthy, if_neg hq]
  refine congrArg (List.map stripId) (List.filter_congr ?_)
  intro d _
  simp [matchesFilter, optCheck]

/-- Witness for C1 at the query "rose" on a one-document collection. -/
theorem list_products_query_spec_witness :
    ("rose" : String) ≠ "" ∧
    list_products [womenDoc] none (some "rose") none none none =
      ([womenDoc].filter (fun d =>
        containsCI d.title "rose" || containsCI d.description "rose" ||
        d.tags.contains "rose")).map stripId :=
  ⟨by decide, list_products_query_spec [womenDoc] "rose" (by decide)⟩

/-- C2: with optional price bounds given (and the other filters absent),
list_products returns exactly the documents whose price satisfies every
given bound, each bound inclusively; in particular a document whose
price equals both given bounds is included. -/
theorem list_products_price_spec (coll : List StoredDoc) (mn mx : Option Rat)
    (d : StoredDoc) (hd : d ∈ coll) (m M : Rat)
    (h1 : m ≤ d.price) (h2 : d.price ≤ M) :
    list_products coll none none none mn mx =
      (coll.filter (fun x =>
        optCheck mn (fun lo => decide (lo ≤ x.price)) &&
        optCheck mx (fun hi => decide (x.price ≤ hi)))).map stripId ∧
    stripId d ∈ list_products coll none none none (some m) (some M) := by
  constructor
  · cases mn <;> cases mx <;>
    · simp only [list_products, get_documents, list_products_filters, truthy]
      refine congrArg (List.map stripId) (List.filter_congr ?_)
      intro x _
      simp [matchesFilter, optCheck]
  · simp only [list_products, get_documents, list_products_filters, truthy]
    refine List.mem_map_of_mem stripId ?_
    refine List.mem_filter.mpr ⟨hd, ?_⟩
    simp [matchesFilter, optCheck, h1, h2]

/-- Witness for C2: the sample document's price 10 equals both bounds of
the range [10, 10] and the document is returned. -/
theorem list_products_price_spec_witness :
    womenDoc ∈ [womenDoc] ∧ (10 : Rat) ≤ womenDoc.price ∧ womenDoc.price ≤ (10 : Rat) ∧
    stripId womenDoc ∈ list_products [womenDoc] none none none (some 10) (some 10) :=
  ⟨by decide, by norm_num [womenDoc], by norm_num [womenDoc],
   (list_products_price_spec [womenDoc] none none womenDoc (by decide) 10 10
     (by norm_num [womenDoc]) (by norm_num [womenDoc])).2⟩

/-- C3: seeding an empty product collection inserts exactly the five
demo documents (the resulting collection, stripped of store identities,
is the demo list, of length 5) and returns the inserted count 5; seeding
a non-empty collection leaves the store unchanged, issues only a count
operation, and returns the current document count. -/
theorem seed_products_spec (coll : List StoredDoc) (hc : coll ≠ []) :
    seed_products (some []) =
      (Except.ok ("Catalog seeded", 5),
       some (demo_products.foldl create_document []),
       DbOp.countDocuments :: demo_products.map (fun _ => DbOp.insertOne)) ∧
    (demo_products.foldl create_document []).map stripId = demo_products ∧
    (demo_products.foldl create_document []).length = 5 ∧
    seed_products (some coll) =
      (Except.ok ("Catalog already seeded", coll.length), some coll,
       [DbOp.countDocuments]) := by
  refine ⟨rfl, rfl, rfl, ?_⟩
  have h : 0 < coll.length := List.length_pos.mpr hc
  simp [seed_products, h]

/-- Witness for C3 on the one-document collection. -/
theorem seed_products_spec_witness :
    [womenDoc] ≠ ([] : List StoredDoc) ∧
    seed_products (some [womenDoc]) =
      (Except.ok ("Catalog already seeded", [womenDoc].length), some [womenDoc],
       [DbOp.countDocuments]) :=
  ⟨by decide, (seed_products_spec [womenDoc] (by decide)).2.2.2⟩

/-- C4: featured_products returns at most 6 items and every returned
item has featured = true. -/
theorem featured_products_spec (coll : List StoredDoc) :
    (featured_products coll).length ≤ 6 ∧
    ∀ p ∈ featured_products coll, p.featured = true := by
  constructor
  · simp only [featured_products, get_documents, List.length_map]
    exact List.length_take_le 6 _
  · intro p hp
    simp only [featured_products, get_documents, List.mem_map] at hp
    obtain ⟨d, hd, rfl⟩ := hp
    have hd' := List.mem_filter.mp (List.mem_of_mem_take hd)
    have := hd'.2
    simpa [matchesFilter, featured_filter, optCheck, stripId] using this

/-- Witness for C4 on the one-document collection, whose single returned
item is featured. -/
theorem featured_products_spec_witness :
    (featured_products [womenDoc]).length ≤ 6 ∧ (stripId womenDoc).featured = true :=
  ⟨(featured_products_spec [womenDoc]).1,
   (featured_products_spec [womenDoc]).2 (stripId womenDoc) (by decide)⟩

/-- C10: an empty-string category and an empty-string query are treated
exactly as absent parameters, while featured = false is applied as a
real filter: only documents with featured = false are returned. -/
theorem empty_string_params_spec (coll : List StoredDoc) (cat q : Option String)
    (f : Option Bool) (mn mx : Option Rat) :
    list_products coll (some "") q f mn mx = list_products coll none q f mn mx ∧
    list_products coll cat (some "") f mn mx = list_products coll cat none f mn mx ∧
    list_products coll none none (some false) none none =
      (coll.filter (fun d => d.featured == false)).map stripId := by
  refine ⟨rfl, rfl, ?_⟩
  simp only [list_products, get_documents, list_products_filters, truthy]
  refine congrArg (List.map stripId) (List.filter_congr ?_)
  intro d _
  simp [matchesFilter, optCheck]

/-- C5 as stated is false: src/main.py line 145 tests `if category:`, so
the given category value "" is dropped from the filter and a stored
document of category "women" is returned even though its category does
not equal the given value. -/
theorem list_products_category_cex :
    list_products [womenDoc] (some "") none none none none = [stripId womenDoc] ∧
    (stripId womenDoc).category ≠ "" :=
  ⟨rfl, by decide⟩

/-- C5 amended: for every given NON-EMPTY category value every returned
document's category equals it; and whenever the featured parameter is
given (true or false) every returned document's featured field equals
it. -/
theorem list_products_exact_match_spec (coll : List StoredDoc) (c : String)
    (hc : c ≠ "") (cat q : Option String) (f : Option Bool) (b : Bool)
    (mn mx : Option Rat) :
    (∀ p ∈ list_products coll (some c) q f mn mx, p.category = c) ∧
    (∀ p ∈ list_products coll cat q (some b) mn mx, p.featured = b) := by
  constructor
  · intro p hp
    simp only [list_products, get_documents, List.mem_map] at hp
    obtain ⟨d, hd, rfl⟩ := hp
    have h2 := (List.mem_filter.mp hd).2
    simp only [matchesFilter, list_products_filters, truthy, if_neg hc, optCheck,
      Bool.and_eq_true] at h2
    simpa [stripId] using h2.1.1.1
  · intro p hp
    simp only [list_products, get_documents, List.mem_map] at hp
    obtain ⟨d, hd, rfl⟩ := hp
    have h2 := (List.mem_filter.mp hd).2
    simp only [matchesFilter, list_products_filters, truthy, optCheck,
      Bool.and_eq_true] at h2
    simpa [stripId] using h2.1.1.2

/-- Witness for the amended C5 at category "women" and featured = true
on the one-document collection. -/
theorem list_products_exact_match_spec_witness :
    ("women" : String) ≠ "" ∧ (stripId womenDoc).category = "women" ∧
    (stripId womenDoc).featured = true :=
  ⟨by decide,
   (list_products_exact_match_spec [womenDoc] "women" (by decide) none none none
     true none none).1 (stripId womenDoc) (by decide),
   (list_products_exact_match_spec [womenDoc] "women" (by decide) none none none
     true none none).2 (stripId womenDoc) (by decide)⟩

/-- C6: with the store handle absent, each of the seed, list and
featured endpoints fails with status 500 and the fixed detail
"Database not configured", and issues no store operation. -/
theorem unconfigured_db_spec (cat q : Option String) (f : Option Bool)
    (mn mx : Option Rat) :
    list_products_ep none cat q f mn mx =
      (Except.error ⟨500, "Database not configured"⟩, none, []) ∧
    featured_products_ep none =
      (Except.error ⟨500, "Database not configured"⟩, none, []) ∧
    seed_products none =
      (Except.error ⟨500, "Database not configured"⟩, none, []) :=
  ⟨rfl, rfl, rfl⟩

/-- C7: test_database is a total function (no exception propagates); an
exception raised while listing collections is reported inside the
database field truncated to at most 50 characters, and the reported
collections list always has at most 10 names. -/
theorem test_database_spec (present : Bool) (dbName : Option String)
    (urlSet : Bool) (lc : Except String (List String)) (e : String) :
    (test_database true dbName urlSet (Except.error e)).1.database =
      "⚠️  Connected but Error: " ++ truncate50 e ∧
    (truncate50 e).length ≤ 50 ∧
    (test_database present dbName urlSet lc).1.collections.length ≤ 10 := by
  refine ⟨rfl, List.length_take_le 50 e.data, ?_⟩
  cases present with
  | false => simp [test_database]
  | true =>
    cases lc with
    | ok cols =>
        simp [test_database, List.length_take]
    | error e2 => simp [test_database]

/-- C8: the transport Product shape carries no identifier — stripId is
insensitive to the store-assigned id — and every product returned by
list_products or featured_products is a stored document with its `_id`
stripped. -/
theorem response_strips_id (d0 : StoredDoc) (n : Nat) (coll : List StoredDoc)
    (cat q : Option String) (f : Option Bool) (mn mx : Option Rat) :
    stripId { d0 with id := n } = stripId d0 ∧
    (∀ p ∈ list_products coll cat q f mn mx, ∃ d ∈ coll, p = stripId d) ∧
    (∀ p ∈ featured_products coll, ∃ d ∈ coll, p = stripId d) := by
  refine ⟨rfl, ?_, ?_⟩
  · intro p hp
    simp only [list_products, get_documents, List.mem_map] at hp
    obtain ⟨d, hd, rfl⟩ := hp
    exact ⟨d, (List.mem_filter.mp hd).1, rfl⟩
  · intro p hp
    simp only [featured_products, get_documents, List.mem_map] at hp
    obtain ⟨d, hd, rfl⟩ := hp
    exact ⟨d, (List.mem_filter.mp (List.mem_of_mem_take hd)).1, rfl⟩

/-- Witness for C8 on the one-document collection. -/
theorem response_strips_id_witness :
    stripId { womenDoc with id := 99 } = stripId womenDoc ∧
    ∃ d ∈ [womenDoc], stripId womenDoc = stripId d :=
  ⟨(response_strips_id womenDoc 99 [womenDoc] none none none none none).1,
   (response_strips_id womenDoc 99 [womenDoc] none none none none none).2.1
     (stripId womenDoc) (by decide)⟩

/-- C9: list_products_ep, featured_products_ep and test_database leave
the store state unchanged and their operation traces contain no write;
only the seed path writes. -/
theorem read_endpoints_frame (db : Option (List StoredDoc)) (cat q : Option String)
    (f : Option Bool) (mn mx : Option Rat) (present : Bool) (dbName : Option String)
    (urlSet : Bool) (lc : Except String (List String)) :
    (list_products_ep db cat q f mn mx).2.1 = db ∧
    (∀ op ∈ (list_products_ep db cat q f mn mx).2.2, op.isWrite = false) ∧
    (featured_products_ep db).2.1 = db ∧
    (∀ op ∈ (featured_products_ep db).2.2, op.isWrite = false) ∧
    (∀ op ∈ (test_database present dbName urlSet lc).2, op.isWrite = false) := by
  cases db <;> cases present <;> cases lc <;>
    simp [list_products_ep, featured_products_ep, test_database, DbOp.isWrite]

/-- Witness for C9: the find operation issued by the list endpoint on a
concrete store is not a write. -/
theorem read_endpoints_frame_witness : DbOp.isWrite DbOp.find = false :=
  (read_endpoints_frame (some []) none none none none none true none true
    (Except.ok [])).2.1 DbOp.find (by decide)

end Marketplace
